import Mathlib

/-!
Shallow embedding of `src/config.ts` of the next-firebase-auth repository:
a configuration manager that merges a user-supplied config with defaults,
validates the merged result against context-dependent rules (client versus
server), stores it in a process-wide cell, and exposes a getter.

Modelling conventions for the JavaScript/TypeScript source:

* An optional object field is `Option α`; `none` plays the role of the
  absent/undefined field.
* JavaScript truthiness of a string-valued field: `none` and `some ""` are
  falsy, every other value is truthy.
* Handler-typed fields (`tokenChangedHandler`, `onLoginRequestError`, ...)
  hold arbitrary runtime values in JavaScript; we model a present value by
  `JSHandler`, which records whether the value is a function and, when it is
  not, whether it is truthy.  `typeof x` being `function` or `undefined`
  corresponds to the field being `none` or `some JSHandler.func`.
* `isClientSide()` and `process.env.FIREBASE_AUTH_EMULATOR_HOST` are ambient
  inputs of the module; they are passed as explicit parameters.
* The module-level mutable cell `let config` is threaded as explicit state
  `Option ConfigMerged` (`none` = uninitialized).
* `logDebug` and the `throw` in `setConfig` are recorded in an event trace.
-/

/-- A present runtime value stored in a handler-typed config field.
`func` is a function value (always truthy in JavaScript); `otherTruthy`
and `otherFalsy` are non-function values of the corresponding truthiness
(for example an object, respectively `0` or `false`). -/
inductive JSHandler where
  | func
  | otherTruthy
  | otherFalsy
deriving DecidableEq, Repr

/-- A present runtime value of the `cookies.keys` field: either a non-array
primitive (modelled by a string) or an array whose elements may themselves
be undefined. -/
inductive KeysVal where
  | prim (s : String)
  | arr (items : List (Option String))
deriving DecidableEq, Repr

/-- The `firebaseClientInitConfig` object (`apiKey` plus other client-side
initialization fields, of which the validator only reads `apiKey`). -/
structure FirebaseClientInitConfig where
  apiKey : Option String
  authDomain : Option String
  databaseURL : Option String
  projectId : Option String
deriving DecidableEq, Repr

/-- The `firebaseAdminInitConfig.credential` object. -/
structure FirebaseAdminCredential where
  projectId : Option String
  clientEmail : Option String
  privateKey : Option String
deriving DecidableEq, Repr

/-- The `firebaseAdminInitConfig` object. -/
structure FirebaseAdminInitConfig where
  credential : Option FirebaseAdminCredential
  databaseURL : Option String
deriving DecidableEq, Repr

/-- The cookie-options sub-record.  Every field is optional at the input
level; the merge fills fields from the default cookie options. -/
structure Cookies where
  name : Option String
  keys : Option KeysVal
  domain : Option String
  httpOnly : Option Bool
  maxAge : Option Int
  overwrite : Option Bool
  path : Option String
  sameSite : Option String
  secure : Option Bool
  signed : Option Bool
deriving DecidableEq, Repr

/-- `ConfigInput`: the user-supplied configuration, every recognized field
possibly absent, including the whole `cookies` sub-record. -/
structure ConfigInput where
  debug : Option Bool
  loginAPIEndpoint : Option String
  logoutAPIEndpoint : Option String
  authPageURL : Option String
  appPageURL : Option String
  tokenChangedHandler : Option JSHandler
  onLoginRequestError : Option JSHandler
  onLogoutRequestError : Option JSHandler
  onVerifyTokenError : Option JSHandler
  onTokenRefreshError : Option JSHandler
  firebaseAuthEmulatorHost : Option String
  firebaseAdminInitConfig : Option FirebaseAdminInitConfig
  firebaseClientInitConfig : Option FirebaseClientInitConfig
  cookies : Option Cookies
deriving DecidableEq, Repr

/-- `ConfigMerged`: the result of merging a `ConfigInput` over the default
config.  The `cookies` sub-record is always present after the merge; the
remaining fields keep their optional value type (both the user and the
default may leave a field undefined). -/
structure ConfigMerged where
  debug : Option Bool
  loginAPIEndpoint : Option String
  logoutAPIEndpoint : Option String
  authPageURL : Option String
  appPageURL : Option String
  tokenChangedHandler : Option JSHandler
  onLoginRequestError : Option JSHandler
  onLogoutRequestError : Option JSHandler
  onVerifyTokenError : Option JSHandler
  onTokenRefreshError : Option JSHandler
  firebaseAuthEmulatorHost : Option String
  firebaseAdminInitConfig : Option FirebaseAdminInitConfig
  firebaseClientInitConfig : Option FirebaseClientInitConfig
  cookies : Cookies
deriving DecidableEq, Repr

/-- Modelled from the spec: `defaultConfig` lives in `src/configTypes.ts`,
which is not part of the provided sources.  The spec describes it as a
"fixed baseline record with a value for every recognized option"; the
concrete values below follow the library conventions (endpoints, handlers
and credentials left undefined so that validation rules about them remain
reachable, cookie transport flags and a default max-age provided). -/
def defaultConfig : ConfigMerged :=
  { debug := some false
  , loginAPIEndpoint := none
  , logoutAPIEndpoint := none
  , authPageURL := none
  , appPageURL := none
  , tokenChangedHandler := none
  , onLoginRequestError := none
  , onLogoutRequestError := none
  , onVerifyTokenError := none
  , onTokenRefreshError := none
  , firebaseAuthEmulatorHost := none
  , firebaseAdminInitConfig := none
  , firebaseClientInitConfig := none
  , cookies :=
    { name := none
    , keys := none
    , domain := none
    , httpOnly := some true
    , maxAge := some (60 * 60 * 24 * 12 * 1000)
    , overwrite := some true
    , path := some "/"
    , sameSite := some "strict"
    , secure := some true
    , signed := some true } }

/-- JavaScript truthiness of an optional string: undefined and the empty
string are falsy. -/
def strTruthy : Option String → Bool
  | some s => s != ""
  | none => false

/-- JavaScript truthiness of an optional handler-typed value. -/
def jsTruthy : Option JSHandler → Bool
  | some JSHandler.func => true
  | some JSHandler.otherTruthy => true
  | some JSHandler.otherFalsy => false
  | none => false

/-- The source check `funcOrUndefArr.indexOf(typeof x) < 0` negated:
`typeof x` is `function` or `undefined`. -/
def funcOrUndef : Option JSHandler → Bool
  | none => true
  | some JSHandler.func => true
  | some JSHandler.otherTruthy => false
  | some JSHandler.otherFalsy => false

/-- `TWO_WEEKS_IN_MS` from `src/config.ts` line 7, with the factors in the
order the source writes them. -/
def TWO_WEEKS_IN_MS : Int := 14 * 60 * 60 * 24 * 1000

/-- The JavaScript `s.startsWith(p)` check, computed on the character
lists of the strings (extensionally the same as `String.startsWith`, and
fully reducible). -/
def jsStartsWith (s p : String) : Bool :=
  p.data.isPrefixOf s.data

/-- The source computation of `areCookieKeysDefined`: an array is defined
when it is nonempty and keeps at least one element after filtering out
undefined entries; a non-array value is defined when truthy; an undefined
`keys` is not defined. -/
def areCookieKeysDefined : Option KeysVal → Bool
  | some (KeysVal.arr l) =>
      (l.length != 0) && ((l.filter fun i => i != none).length != 0)
  | some (KeysVal.prim s) => s != ""
  | none => false

/-- Truthiness of `firebaseAdminInitConfig && firebaseAdminInitConfig.credential
&& firebaseAdminInitConfig.credential.privateKey`. -/
def adminPrivateKeyTruthy (m : ConfigMerged) : Bool :=
  match m.firebaseAdminInitConfig with
  | some a =>
    match a.credential with
    | some c => strTruthy c.privateKey
    | none => false
  | none => false

/-- Truthiness of `firebaseClientInitConfig && firebaseClientInitConfig.apiKey`. -/
def hasApiKey (m : ConfigMerged) : Bool :=
  match m.firebaseClientInitConfig with
  | some c => strTruthy c.apiKey
  | none => false

def msgLoginNotSet : String :=
  "The \"loginAPIEndpoint\" setting should not be set if you are using a \"tokenChangedHandler\"."

def msgLogoutNotSet : String :=
  "The \"logoutAPIEndpoint\" setting should not be set if you are using a \"tokenChangedHandler\"."

def msgOnLoginNotSet : String :=
  "The \"onLoginRequestError\" setting should not be set if you are using a \"tokenChangedHandler\"."

def msgOnLogoutNotSet : String :=
  "The \"onLogoutRequestError\" setting should not be set if you are using a \"tokenChangedHandler\"."

def msgApiKeyRequired : String :=
  "The \"firebaseClientInitConfig.apiKey\" value is required."

def msgEmulatorScheme : String :=
  "The firebaseAuthEmulatorHost should be set without a prefix (e.g., localhost:9099)"

def msgOnVerifyTokenErrorFn : String :=
  "Invalid next-firebase-auth options: The \"onVerifyTokenError\" setting must be a function."

def msgOnTokenRefreshErrorFn : String :=
  "Invalid next-firebase-auth options: The \"onTokenRefreshError\" setting must be a function."

def msgOnLoginRequestErrorFn : String :=
  "Invalid next-firebase-auth options: The \"onLoginRequestError\" setting must be a function."

def msgOnLogoutRequestErrorFn : String :=
  "Invalid next-firebase-auth options: The \"onLogoutRequestError\" setting must be a function."

def msgLoginRequired : String :=
  "The \"loginAPIEndpoint\" setting is required."

def msgLogoutRequired : String :=
  "The \"logoutAPIEndpoint\" setting is required."

def msgAdminKeyClient : String :=
  "The \"firebaseAdminInitConfig\" private key setting should not be available on the client side."

def msgCookieKeysClient : String :=
  "The \"cookies.keys\" setting should not be available on the client side."

def msgCookieNameRequired : String :=
  "The \"cookies.name\" setting is required on the server side."

def msgEnvUnset : String :=
  "The \"FIREBASE_AUTH_EMULATOR_HOST\" environment variable should be set if you are using the \"firebaseAuthEmulatorHost\" option"

def msgEnvMismatch : String :=
  "The \"FIREBASE_AUTH_EMULATOR_HOST\" environment variable should be the same as the host set in the config"

def msgMaxAge : String :=
  "The \"cookies.maxAge\" setting must be less than two weeks (" ++
    toString TWO_WEEKS_IN_MS ++ " ms)."

/-- A conditional `errorMessages.push(msg)`. -/
def errIf (b : Bool) (msg : String) : List String :=
  if b then [msg] else []

/-- The `ValidationResult` record returned by `validateConfig`. -/
structure ValidationResult where
  isValid : Bool
  errors : List String
deriving DecidableEq, Repr

/-- The server-side emulator-host environment checks (`src/config.ts`
lines 134-147), guarded by the truthiness of the configured host. -/
def emulatorEnvErrors (envVar : Option String) (host : Option String) : List String :=
  match host with
  | none => []
  | some h =>
    if h != "" then
      if !strTruthy envVar then [msgEnvUnset]
      else if envVar != some h then [msgEnvMismatch]
      else []
    else []

/-- The check `!maxAge || maxAge > TWO_WEEKS_IN_MS` on
`mergedConfig.cookies.maxAge`. -/
def maxAgeInvalid : Option Int → Bool
  | none => true
  | some n => n == 0 || decide (n > TWO_WEEKS_IN_MS)

/-- `validateConfig` from `src/config.ts`, with the ambient execution
context (`isClientSide()`) and the environment variable
`FIREBASE_AUTH_EMULATOR_HOST` passed explicitly.  The error messages are
collected in the source order. -/
def validateConfig (isClientSide : Bool) (envVar : Option String)
    (m : ConfigMerged) : ValidationResult :=
  let errorMessages : List String :=
    (if jsTruthy m.tokenChangedHandler then
        errIf (strTruthy m.loginAPIEndpoint) msgLoginNotSet
          ++ errIf (strTruthy m.logoutAPIEndpoint) msgLogoutNotSet
          ++ errIf (jsTruthy m.onLoginRequestError) msgOnLoginNotSet
          ++ errIf (jsTruthy m.onLogoutRequestError) msgOnLogoutNotSet
      else [])
    ++ errIf (!hasApiKey m) msgApiKeyRequired
    ++ errIf (match m.firebaseAuthEmulatorHost with
              | some h => h != "" && jsStartsWith h "http"
              | none => false) msgEmulatorScheme
    ++ errIf (!funcOrUndef m.onVerifyTokenError) msgOnVerifyTokenErrorFn
    ++ errIf (!funcOrUndef m.onTokenRefreshError) msgOnTokenRefreshErrorFn
    ++ errIf (!funcOrUndef m.onLoginRequestError) msgOnLoginRequestErrorFn
    ++ errIf (!funcOrUndef m.onLogoutRequestError) msgOnLogoutRequestErrorFn
    ++ (if isClientSide then
          (if !jsTruthy m.tokenChangedHandler then
              errIf (!strTruthy m.loginAPIEndpoint) msgLoginRequired
                ++ errIf (!strTruthy m.logoutAPIEndpoint) msgLogoutRequired
            else [])
          ++ errIf (adminPrivateKeyTruthy m) msgAdminKeyClient
          ++ errIf (areCookieKeysDefined m.cookies.keys) msgCookieKeysClient
        else
          errIf (!strTruthy m.cookies.name) msgCookieNameRequired
          ++ emulatorEnvErrors envVar m.firebaseAuthEmulatorHost
          ++ errIf (maxAgeInvalid m.cookies.maxAge) msgMaxAge)
  { isValid := errorMessages.length == 0
  , errors := errorMessages }

/-- The `cookies` object with no field defined (the `{}` in
`...(cookieOptions || \x7b\x7d)`). -/
def emptyCookies : Cookies :=
  { name := none, keys := none, domain := none, httpOnly := none
  , maxAge := none, overwrite := none, path := none, sameSite := none
  , secure := none, signed := none }

/-- JavaScript object-spread on one optional field: the later object wins
when it defines the field. -/
def spread {α : Type} (d u : Option α) : Option α :=
  match u with
  | some v => some v
  | none => d

/-- The merge in `setConfig`
(`\x7b...defaultConfig, ...otherUserConfig, cookies: \x7b...defaultConfig.cookies,
...(cookieOptions || \x7b\x7d)\x7d\x7d`): the user config is spread over the default
config, and the cookie options are spread key-by-key over the default
cookie options.  Since every field of `ConfigInput` is optional, the spread
is applied field by field. -/
def mergeConfig (u : ConfigInput) : ConfigMerged :=
  let cookieOptions := u.cookies.getD emptyCookies
  { debug := spread defaultConfig.debug u.debug
  , loginAPIEndpoint := spread defaultConfig.loginAPIEndpoint u.loginAPIEndpoint
  , logoutAPIEndpoint := spread defaultConfig.logoutAPIEndpoint u.logoutAPIEndpoint
  , authPageURL := spread defaultConfig.authPageURL u.authPageURL
  , appPageURL := spread defaultConfig.appPageURL u.appPageURL
  , tokenChangedHandler := spread defaultConfig.tokenChangedHandler u.tokenChangedHandler
  , onLoginRequestError := spread defaultConfig.onLoginRequestError u.onLoginRequestError
  , onLogoutRequestError := spread defaultConfig.onLogoutRequestError u.onLogoutRequestError
  , onVerifyTokenError := spread defaultConfig.onVerifyTokenError u.onVerifyTokenError
  , onTokenRefreshError := spread defaultConfig.onTokenRefreshError u.onTokenRefreshError
  , firebaseAuthEmulatorHost := spread defaultConfig.firebaseAuthEmulatorHost u.firebaseAuthEmulatorHost
  , firebaseAdminInitConfig := spread defaultConfig.firebaseAdminInitConfig u.firebaseAdminInitConfig
  , firebaseClientInitConfig := spread defaultConfig.firebaseClientInitConfig u.firebaseClientInitConfig
  , cookies :=
    { name := spread defaultConfig.cookies.name cookieOptions.name
    , keys := spread defaultConfig.cookies.keys cookieOptions.keys
    , domain := spread defaultConfig.cookies.domain cookieOptions.domain
    , httpOnly := spread defaultConfig.cookies.httpOnly cookieOptions.httpOnly
    , maxAge := spread defaultConfig.cookies.maxAge cookieOptions.maxAge
    , overwrite := spread defaultConfig.cookies.overwrite cookieOptions.overwrite
    , path := spread defaultConfig.cookies.path cookieOptions.path
    , sameSite := spread defaultConfig.cookies.sameSite cookieOptions.sameSite
    , secure := spread defaultConfig.cookies.secure cookieOptions.secure
    , signed := spread defaultConfig.cookies.signed cookieOptions.signed } }

/-- The redacted configuration passed to `logDebug`: shaped like the user
config, except that the `cookies` sub-record is always an object. -/
structure RedactedConfig where
  debug : Option Bool
  loginAPIEndpoint : Option String
  logoutAPIEndpoint : Option String
  authPageURL : Option String
  appPageURL : Option String
  tokenChangedHandler : Option JSHandler
  onLoginRequestError : Option JSHandler
  onLogoutRequestError : Option JSHandler
  onVerifyTokenError : Option JSHandler
  onTokenRefreshError : Option JSHandler
  firebaseAuthEmulatorHost : Option String
  firebaseAdminInitConfig : Option FirebaseAdminInitConfig
  firebaseClientInitConfig : Option FirebaseClientInitConfig
  cookies : Cookies
deriving DecidableEq, Repr

/-- `replacePrivateValues` from `src/config.ts`: spread the unredacted
config, force `cookies.keys` to the one-element placeholder array
`["hidden"]`, and, when `firebaseAdminInitConfig` is present, spread it
and force `credential.privateKey` and `credential.clientEmail` to the
placeholder string when the credential is present. -/
def replacePrivateValues (u : ConfigInput) : RedactedConfig :=
  { debug := u.debug
  , loginAPIEndpoint := u.loginAPIEndpoint
  , logoutAPIEndpoint := u.logoutAPIEndpoint
  , authPageURL := u.authPageURL
  , appPageURL := u.appPageURL
  , tokenChangedHandler := u.tokenChangedHandler
  , onLoginRequestError := u.onLoginRequestError
  , onLogoutRequestError := u.onLogoutRequestError
  , onVerifyTokenError := u.onVerifyTokenError
  , onTokenRefreshError := u.onTokenRefreshError
  , firebaseAuthEmulatorHost := u.firebaseAuthEmulatorHost
  , firebaseAdminInitConfig :=
      match u.firebaseAdminInitConfig with
      | none => none
      | some a =>
        some { a with credential :=
          match a.credential with
          | none => a.credential
          | some c =>
            some { c with privateKey := some "hidden"
                        , clientEmail := some "hidden" } }
  , firebaseClientInitConfig := u.firebaseClientInitConfig
  , cookies :=
      { u.cookies.getD emptyCookies with
          keys := some (KeysVal.arr [some "hidden"]) } }

/-- The message of the error thrown by `setConfig` on invalid input:
all collected rule violations joined by a single space, after a fixed
label. -/
def invalidConfigurationMessage (errors : List String) : String :=
  "Invalid next-firebase-auth options: " ++ String.intercalate " " errors

/-- The observable events of one `setConfig` call, in order. -/
inductive SetEvent where
  | logged (r : RedactedConfig)
  | validated (v : ValidationResult)
  | stored (m : ConfigMerged)
  | raised (msg : String)
deriving DecidableEq, Repr

/-- The outcome of one `setConfig` call: its event trace, the state of the
module-level `config` cell afterwards, and the thrown error message, if
any. -/
structure SetOutcome where
  trace : List SetEvent
  newState : Option ConfigMerged
  thrown : Option String
deriving DecidableEq, Repr

/-- `setConfig` from `src/config.ts`: log the redacted user config, merge
the user config over the defaults, validate the merged config, and either
store it (replacing the previous state) or throw the aggregated
`InvalidConfiguration` error, leaving the state unchanged. -/
def setConfig (isClientSide : Bool) (envVar : Option String)
    (st : Option ConfigMerged) (u : ConfigInput) : SetOutcome :=
  let redacted := replacePrivateValues u
  let mergedConfig := mergeConfig u
  let v := validateConfig isClientSide envVar mergedConfig
  if v.isValid then
    { trace := [SetEvent.logged redacted, SetEvent.validated v,
                SetEvent.stored mergedConfig]
    , newState := some mergedConfig
    , thrown := none }
  else
    { trace := [SetEvent.logged redacted, SetEvent.validated v,
                SetEvent.raised (invalidConfigurationMessage v.errors)]
    , newState := st
    , thrown := some (invalidConfigurationMessage v.errors) }

/-- The message of the error thrown by `getConfig` when the module is not
initialized. -/
def msgNotInitialized : String :=
  "next-firebase-auth must be initialized before rendering."

/-- `getConfig` from `src/config.ts`: throw when the cell was never set,
otherwise return the stored merged config. -/
def getConfig (st : Option ConfigMerged) : Except String ConfigMerged :=
  match st with
  | none => Except.error msgNotInitialized
  | some c => Except.ok c

/-- Folding a sequence of `setConfig` calls over the module state, starting
from the uninitialized state (the process lifetime of the config cell). -/
def runSetConfigs (c : Bool) (e : Option String) (us : List ConfigInput) :
    Option ConfigMerged :=
  us.foldl (fun st u => (setConfig c e st u).newState) none

/-- Atomic defaulting of one top-level field, as the spec words it: the
user field is used when the user supplies it, the default otherwise. -/
def defaultedField {α : Type} (userField defaultField : Option α) : Option α :=
  if userField.isSome then userField else defaultField

/-- The merge as the spec describes it: "top-level fields default
atomically (user field present, use it; else use default); the
cookie-options field defaults key-by-key (default cookie options overlaid,
then overridden by any user-supplied cookie fields)".  Stated separately
from `mergeConfig` (which follows the source spreads) so the two can be
compared. -/
def mergeConfigSpec (u : ConfigInput) : ConfigMerged :=
  { debug := defaultedField u.debug defaultConfig.debug
  , loginAPIEndpoint := defaultedField u.loginAPIEndpoint defaultConfig.loginAPIEndpoint
  , logoutAPIEndpoint := defaultedField u.logoutAPIEndpoint defaultConfig.logoutAPIEndpoint
  , authPageURL := defaultedField u.authPageURL defaultConfig.authPageURL
  , appPageURL := defaultedField u.appPageURL defaultConfig.appPageURL
  , tokenChangedHandler := defaultedField u.tokenChangedHandler defaultConfig.tokenChangedHandler
  , onLoginRequestError := defaultedField u.onLoginRequestError defaultConfig.onLoginRequestError
  , onLogoutRequestError := defaultedField u.onLogoutRequestError defaultConfig.onLogoutRequestError
  , onVerifyTokenError := defaultedField u.onVerifyTokenError defaultConfig.onVerifyTokenError
  , onTokenRefreshError := defaultedField u.onTokenRefreshError defaultConfig.onTokenRefreshError
  , firebaseAuthEmulatorHost := defaultedField u.firebaseAuthEmulatorHost defaultConfig.firebaseAuthEmulatorHost
  , firebaseAdminInitConfig := defaultedField u.firebaseAdminInitConfig defaultConfig.firebaseAdminInitConfig
  , firebaseClientInitConfig := defaultedField u.firebaseClientInitConfig defaultConfig.firebaseClientInitConfig
  , cookies :=
    { name := defaultedField (u.cookies.bind Cookies.name) defaultConfig.cookies.name
    , keys := defaultedField (u.cookies.bind Cookies.keys) defaultConfig.cookies.keys
    , domain := defaultedField (u.cookies.bind Cookies.domain) defaultConfig.cookies.domain
    , httpOnly := defaultedField (u.cookies.bind Cookies.httpOnly) defaultConfig.cookies.httpOnly
    , maxAge := defaultedField (u.cookies.bind Cookies.maxAge) defaultConfig.cookies.maxAge
    , overwrite := defaultedField (u.cookies.bind Cookies.overwrite) defaultConfig.cookies.overwrite
    , path := defaultedField (u.cookies.bind Cookies.path) defaultConfig.cookies.path
    , sameSite := defaultedField (u.cookies.bind Cookies.sameSite) defaultConfig.cookies.sameSite
    , secure := defaultedField (u.cookies.bind Cookies.secure) defaultConfig.cookies.secure
    , signed := defaultedField (u.cookies.bind Cookies.signed) defaultConfig.cookies.signed } }

/-- Modelled from the spec: the validator must reject an emulator host that
"includes a URL scheme prefix" (for example `http://localhost:9099`), and
accept one without it (for example `localhost:9099`).  A string includes a
URL scheme prefix when it starts with a scheme name (a letter followed by
letters, digits, plus, minus or dot) followed by the separator `://`. -/
def isSchemeChar (c : Char) : Bool :=
  c.isAlpha || c.isDigit || c == '+' || c == '-' || c == '.'

/-- The characters standing before the first occurrence of the separator
`://`, or `none` when the separator never occurs in the string. -/
def schemeBefore (acc : List Char) : List Char → Option (List Char)
  | [] => none
  | c :: rest =>
    if List.isPrefixOf [':', '/', '/'] (c :: rest) then some acc.reverse
    else schemeBefore (c :: acc) rest

/-- Modelled from the spec: whether a host string includes a URL scheme
prefix such as `http://` or `ftp://`: a nonempty scheme name (a letter
followed by scheme characters) standing before a `://` separator. -/
def includesURLScheme (s : String) : Bool :=
  match schemeBefore [] s.data with
  | none => false
  | some [] => false
  | some (c :: cs) => c.isAlpha && (c :: cs).all isSchemeChar

/-- The user config whose fields are all absent. -/
def emptyInput : ConfigInput :=
  { debug := none, loginAPIEndpoint := none, logoutAPIEndpoint := none
  , authPageURL := none, appPageURL := none, tokenChangedHandler := none
  , onLoginRequestError := none, onLogoutRequestError := none
  , onVerifyTokenError := none, onTokenRefreshError := none
  , firebaseAuthEmulatorHost := none, firebaseAdminInitConfig := none
  , firebaseClientInitConfig := none, cookies := none }

/-- A user config requesting a fifteen-day cookie max-age. -/
def uMaxAge15 : ConfigInput :=
  { emptyInput with
      cookies := some { emptyCookies with maxAge := some (15 * 24 * 60 * 60 * 1000) } }

/-- A merged config whose cookie max-age is exactly `14*60*60*24*1000`. -/
def mMaxAge14 : ConfigMerged :=
  { defaultConfig with
      cookies := { defaultConfig.cookies with maxAge := some (14 * 60 * 60 * 24 * 1000) } }

/-- A merged config whose cookie max-age is zero. -/
def mMaxAgeZero : ConfigMerged :=
  { defaultConfig with
      cookies := { defaultConfig.cookies with maxAge := some 0 } }

/-- A user config that passes server-side validation: an API key, a cookie
name, signing keys and a max-age of exactly two weeks. -/
def uValid : ConfigInput :=
  { emptyInput with
      firebaseClientInitConfig :=
        some { apiKey := some "fakeApiKey123", authDomain := none
             , databaseURL := none, projectId := none }
    , cookies :=
        some { emptyCookies with
                 name := some "ExampleApp"
               , keys := some (KeysVal.arr [some "secret-key-1"])
               , maxAge := some (14 * 60 * 60 * 24 * 1000) } }

/-- A merged config with an emulator host carrying a non-http URL scheme. -/
def mFtpHost : ConfigMerged :=
  { defaultConfig with firebaseAuthEmulatorHost := some "ftp://localhost:9099" }

/-- A merged config with the plain emulator host `localhost:9099`. -/
def mEmuHost : ConfigMerged :=
  { defaultConfig with firebaseAuthEmulatorHost := some "localhost:9099" }

/-- A merged config with an emulator host that includes `https://`. -/
def mHttpsHost : ConfigMerged :=
  { defaultConfig with firebaseAuthEmulatorHost := some "https://localhost:9099" }

/-- A user config carrying an admin credential and cookie signing keys. -/
def uSecretsA : ConfigInput :=
  { emptyInput with
      cookies :=
        some { emptyCookies with keys := some (KeysVal.arr [some "keyA1", some "keyA2"]) }
    , firebaseAdminInitConfig :=
        some { credential :=
                 some { projectId := some "example-project"
                      , clientEmail := some "a@example.com"
                      , privateKey := some "PRIVATE-A" }
             , databaseURL := none } }

/-- Like `uSecretsA` but with different signing keys, private key and
client email. -/
def uSecretsB : ConfigInput :=
  { emptyInput with
      cookies :=
        some { emptyCookies with keys := some (KeysVal.arr [some "keyB"]) }
    , firebaseAdminInitConfig :=
        some { credential :=
                 some { projectId := some "example-project"
                      , clientEmail := some "b@example.com"
                      , privateKey := some "PRIVATE-B" }
             , databaseURL := none } }

/-- Erase the secret-bearing positions of a user config: the cookie
signing keys and, when an admin credential is present, its private key and
client email.  Two user configs agree after erasure exactly when they
differ only in those secret values (the whole-cookies-object absent case is
identified with an empty cookies object, as the redaction itself does). -/
def eraseSecrets (u : ConfigInput) : ConfigInput :=
  { u with
      cookies := some { u.cookies.getD emptyCookies with keys := none }
    , firebaseAdminInitConfig :=
        match u.firebaseAdminInitConfig with
        | none => none
        | some a =>
          some { a with credential :=
            match a.credential with
            | none => a.credential
            | some c => some { c with privateKey := none, clientEmail := none } } }

/-- Rebuild the redacted log object from a secret-erased user config. -/
def redactFromErased (u : ConfigInput) : RedactedConfig :=
  { debug := u.debug
  , loginAPIEndpoint := u.loginAPIEndpoint
  , logoutAPIEndpoint := u.logoutAPIEndpoint
  , authPageURL := u.authPageURL
  , appPageURL := u.appPageURL
  , tokenChangedHandler := u.tokenChangedHandler
  , onLoginRequestError := u.onLoginRequestError
  , onLogoutRequestError := u.onLogoutRequestError
  , onVerifyTokenError := u.onVerifyTokenError
  , onTokenRefreshError := u.onTokenRefreshError
  , firebaseAuthEmulatorHost := u.firebaseAuthEmulatorHost
  , firebaseAdminInitConfig :=
      match u.firebaseAdminInitConfig with
      | none => none
      | some a =>
        some { a with credential :=
          match a.credential with
          | none => a.credential
          | some c =>
            some { c with privateKey := some "hidden"
                        , clientEmail := some "hidden" } }
  , firebaseClientInitConfig := u.firebaseClientInitConfig
  , cookies :=
      { u.cookies.getD emptyCookies with
          keys := some (KeysVal.arr [some "hidden"]) } }

/-! Helper lemmas about the error-collection combinators, the validator
and the setter. -/

theorem mem_errIf {a s : String} {b : Bool} : a ∈ errIf b s ↔ b = true ∧ a = s := by
  cases b <;> simp [errIf]

theorem count_errIf (a : String) (b : Bool) (s : String) :
    (errIf b s).count a = if b = true ∧ s = a then 1 else 0 := by
  cases b <;> simp [errIf, List.count_singleton']

theorem mem_ite_list {α : Type} {c : Prop} [Decidable c] {a : α} {l l' : List α} :
    a ∈ (if c then l else l') ↔ (c ∧ a ∈ l) ∨ (¬c ∧ a ∈ l') := by
  split <;> simp [*]

theorem count_ite_list {α : Type} [DecidableEq α] {c : Prop} [Decidable c]
    (a : α) (l l' : List α) :
    (if c then l else l').count a = if c then l.count a else l'.count a := by
  split <;> rfl

theorem mem_emulatorEnvErrors_elim {a : String} {env host : Option String}
    (h : a ∈ emulatorEnvErrors env host) : a = msgEnvUnset ∨ a = msgEnvMismatch := by
  unfold emulatorEnvErrors at h
  split at h
  · simp at h
  · split at h
    · split at h
      · simp at h
        exact Or.inl h
      · split at h
        · simp at h
          exact Or.inr h
        · simp at h
    · simp at h

theorem count_emulatorEnvErrors_ne {a : String} (env host : Option String)
    (h1 : a ≠ msgEnvUnset) (h2 : a ≠ msgEnvMismatch) :
    (emulatorEnvErrors env host).count a = 0 :=
  List.count_eq_zero.mpr fun hm => (mem_emulatorEnvErrors_elim hm).elim h1 h2

theorem validateConfig_isValid_iff {c : Bool} {e : Option String} {m : ConfigMerged} :
    (validateConfig c e m).isValid = true ↔ (validateConfig c e m).errors = [] := by
  unfold validateConfig
  simp [List.length_eq_zero]

theorem setConfig_of_invalid {c : Bool} {e : Option String} {st : Option ConfigMerged}
    {u : ConfigInput} (h : (validateConfig c e (mergeConfig u)).errors ≠ []) :
    (setConfig c e st u).thrown =
      some (invalidConfigurationMessage (validateConfig c e (mergeConfig u)).errors) ∧
    (setConfig c e st u).newState = st := by
  have hv : (validateConfig c e (mergeConfig u)).isValid = false := by
    rcases hb : (validateConfig c e (mergeConfig u)).isValid with _ | _
    · rfl
    · exact absurd (validateConfig_isValid_iff.mp hb) h
  simp [setConfig, hv]

theorem setConfig_of_valid {c : Bool} {e : Option String} {st : Option ConfigMerged}
    {u : ConfigInput} (h : (validateConfig c e (mergeConfig u)).isValid = true) :
    (setConfig c e st u).thrown = none ∧
    (setConfig c e st u).newState = some (mergeConfig u) := by
  simp [setConfig, h]

/-- C1: in server context the cookie max-age ceiling constant
`TWO_WEEKS_IN_MS` equals 14 days expressed in milliseconds, and the
max-age rule behaves as claimed: a merged config whose `cookies.maxAge` is
15 days in milliseconds makes `setConfig` throw the aggregated
InvalidConfiguration error whose collected messages cite the two-week
ceiling; a `cookies.maxAge` of exactly `14*60*60*24*1000` contributes no
ceiling message; an undefined or zero (falsy) `cookies.maxAge` contributes
the ceiling message. -/
theorem maxAge_ceiling_rule :
    TWO_WEEKS_IN_MS = 14 * 24 * 60 * 60 * 1000 ∧
    (∀ (envVar : Option String) (st : Option ConfigMerged) (u : ConfigInput),
      (mergeConfig u).cookies.maxAge = some (15 * 24 * 60 * 60 * 1000) →
        msgMaxAge ∈ (validateConfig false envVar (mergeConfig u)).errors ∧
        (setConfig false envVar st u).thrown =
          some (invalidConfigurationMessage
            (validateConfig false envVar (mergeConfig u)).errors)) ∧
    (∀ (envVar : Option String) (m : ConfigMerged),
      m.cookies.maxAge = some (14 * 60 * 60 * 24 * 1000) →
        msgMaxAge ∉ (validateConfig false envVar m).errors) ∧
    (∀ (envVar : Option String) (m : ConfigMerged),
      m.cookies.maxAge = none ∨ m.cookies.maxAge = some 0 →
        msgMaxAge ∈ (validateConfig false envVar m).errors) := by
  refine ⟨by decide, ?_, ?_, ?_⟩
  · intro envVar st u h
    have hinv : maxAgeInvalid (mergeConfig u).cookies.maxAge = true := by
      rw [h]; decide
    have hmem : msgMaxAge ∈ (validateConfig false envVar (mergeConfig u)).errors := by
      simp [validateConfig, mem_errIf, mem_ite_list, hinv]
    exact ⟨hmem, (setConfig_of_invalid (List.ne_nil_of_mem hmem)).1⟩
  · intro envVar m h hmem
    have hinv : maxAgeInvalid m.cookies.maxAge = false := by
      rw [h]; decide
    simp +decide [validateConfig, mem_errIf, mem_ite_list, hinv] at hmem
    exact (mem_emulatorEnvErrors_elim hmem).elim (by decide) (by decide)
  · intro envVar m h
    have hinv : maxAgeInvalid m.cookies.maxAge = true := by
      rcases h with h | h <;> rw [h] <;> decide
    simp [validateConfig, mem_errIf, mem_ite_list, hinv]

/-- Witness for C1 at concrete inputs: a fifteen-day max-age is rejected
with the ceiling message and makes `setConfig` throw, a fourteen-day
max-age contributes no ceiling message, and a zero max-age contributes it. -/
theorem maxAge_ceiling_rule_witness :
    msgMaxAge ∈ (validateConfig false none (mergeConfig uMaxAge15)).errors ∧
    (setConfig false none none uMaxAge15).thrown =
      some (invalidConfigurationMessage
        (validateConfig false none (mergeConfig uMaxAge15)).errors) ∧
    msgMaxAge ∉ (validateConfig false none mMaxAge14).errors ∧
    msgMaxAge ∈ (validateConfig false none mMaxAgeZero).errors :=
  ⟨(maxAge_ceiling_rule.2.1 none none uMaxAge15 rfl).1,
   (maxAge_ceiling_rule.2.1 none none uMaxAge15 rfl).2,
   maxAge_ceiling_rule.2.2.1 none mMaxAge14 rfl,
   maxAge_ceiling_rule.2.2.2 none mMaxAgeZero (Or.inr rfl)⟩

theorem spread_eq_defaulted {α : Type} (d x : Option α) :
    spread d x = defaultedField x d := by
  cases x <;> rfl

theorem isSome_spread_some {α : Type} (v : α) (x : Option α) :
    (spread (some v) x).isSome = true := by
  cases x <;> rfl

/-- C2: the merge computed by `setConfig` is exactly the defaulting the
spec describes: each top-level field is the user value when the user
supplies the field and the default value otherwise (atomic replacement),
while the cookies sub-record is merged key-by-key (default cookie options
overlaid, then overridden by the user-supplied cookie fields).
Consequently every field the default config defines is defined in the
merged config, shown here for the fields whose default is a proper value. -/
theorem merge_defaults_every_field :
    (∀ u : ConfigInput, mergeConfig u = mergeConfigSpec u) ∧
    (∀ u : ConfigInput,
      ((mergeConfig u).debug).isSome = true ∧
      ((mergeConfig u).cookies.httpOnly).isSome = true ∧
      ((mergeConfig u).cookies.maxAge).isSome = true ∧
      ((mergeConfig u).cookies.overwrite).isSome = true ∧
      ((mergeConfig u).cookies.path).isSome = true ∧
      ((mergeConfig u).cookies.sameSite).isSome = true ∧
      ((mergeConfig u).cookies.secure).isSome = true ∧
      ((mergeConfig u).cookies.signed).isSome = true) := by
  constructor
  · intro u
    cases hc : u.cookies <;>
      simp [mergeConfig, mergeConfigSpec, spread_eq_defaulted, hc, emptyCookies]
  · intro u
    refine ⟨?_, ?_, ?_, ?_, ?_, ?_, ?_, ?_⟩ <;>
      simp [mergeConfig, defaultConfig, isSome_spread_some]

theorem validateConfig_isValid_false_iff {c : Bool} {e : Option String}
    {m : ConfigMerged} :
    (validateConfig c e m).isValid = false ↔ (validateConfig c e m).errors ≠ [] := by
  constructor
  · intro h hcon
    have hb := validateConfig_isValid_iff.mpr hcon
    rw [h] at hb
    cases hb
  · intro h
    rcases hb : (validateConfig c e m).isValid with _ | _
    · rfl
    · exact absurd (validateConfig_isValid_iff.mp hb) h

theorem setConfig_newState (c : Bool) (e : Option String) (st : Option ConfigMerged)
    (u : ConfigInput) :
    (setConfig c e st u).newState =
      if (validateConfig c e (mergeConfig u)).isValid = true
        then some (mergeConfig u) else st := by
  by_cases hv : (validateConfig c e (mergeConfig u)).isValid = true
  · simp [setConfig, hv]
  · simp [setConfig, hv]

/-- C3: `getConfig` fails with the NotInitialized error on the
uninitialized state; any `setConfig` call that does not throw stores the
merged config, which `getConfig` then returns; a `setConfig` call that
throws leaves the stored state unchanged; and over any sequence of
`setConfig` calls from the uninitialized state, the stored state is the
merge of the last input that validated successfully (so `getConfig` fails
exactly as long as no call ever succeeded). -/
theorem config_store_state_machine :
    getConfig none = Except.error msgNotInitialized ∧
    (∀ (c : Bool) (e : Option String) (st : Option ConfigMerged) (u : ConfigInput),
      (setConfig c e st u).thrown = none →
        (setConfig c e st u).newState = some (mergeConfig u) ∧
        getConfig (setConfig c e st u).newState = Except.ok (mergeConfig u)) ∧
    (∀ (c : Bool) (e : Option String) (st : Option ConfigMerged) (u : ConfigInput)
        (msg : String),
      (setConfig c e st u).thrown = some msg →
        (setConfig c e st u).newState = st) ∧
    (∀ (c : Bool) (e : Option String) (us : List ConfigInput),
      runSetConfigs c e us =
        ((us.filter fun u => (validateConfig c e (mergeConfig u)).isValid).getLast?).map
          mergeConfig) := by
  refine ⟨rfl, ?_, ?_, ?_⟩
  · intro c e st u h
    by_cases hv : (validateConfig c e (mergeConfig u)).isValid = true
    · have h2 := (@setConfig_of_valid c e st u hv).2
      exact ⟨h2, by rw [h2]; rfl⟩
    · have hb : (validateConfig c e (mergeConfig u)).isValid = false := by
        rcases hx : (validateConfig c e (mergeConfig u)).isValid with _ | _
        · rfl
        · exact absurd hx hv
      have := (@setConfig_of_invalid c e st u
        (validateConfig_isValid_false_iff.mp hb)).1
      rw [h] at this
      cases this
  · intro c e st u msg h
    by_cases hv : (validateConfig c e (mergeConfig u)).isValid = true
    · have := (@setConfig_of_valid c e st u hv).1
      rw [h] at this
      cases this
    · have hb : (validateConfig c e (mergeConfig u)).isValid = false := by
        rcases hx : (validateConfig c e (mergeConfig u)).isValid with _ | _
        · rfl
        · exact absurd hx hv
      exact (@setConfig_of_invalid c e st u
        (validateConfig_isValid_false_iff.mp hb)).2
  · intro c e us
    induction us using List.reverseRecOn with
    | nil => rfl
    | append_singleton us u ih =>
      have hfold : runSetConfigs c e (us ++ [u]) =
          (setConfig c e (runSetConfigs c e us) u).newState := by
        simp [runSetConfigs, List.foldl_append]
      rw [hfold, setConfig_newState, ih]
      by_cases hv : (validateConfig c e (mergeConfig u)).isValid = true
      · simp [hv, List.filter_append]
      · have hb : (validateConfig c e (mergeConfig u)).isValid = false := by
          rcases hx : (validateConfig c e (mergeConfig u)).isValid with _ | _
          · rfl
          · exact absurd hx hv
        simp [hv, hb, List.filter_append]

/-- Witness for C3 at concrete inputs: a valid user config is stored and
then returned by `getConfig`, and a failing call (the empty user config
misses the API key) leaves the previously stored state in place. -/
theorem config_store_state_machine_witness :
    ((setConfig false none none uValid).newState = some (mergeConfig uValid) ∧
      getConfig (setConfig false none none uValid).newState =
        Except.ok (mergeConfig uValid)) ∧
    (setConfig false none (some (mergeConfig uValid)) emptyInput).newState =
      some (mergeConfig uValid) :=
  ⟨config_store_state_machine.2.1 false none none uValid (by decide),
   config_store_state_machine.2.2.1 false none (some (mergeConfig uValid)) emptyInput
     (invalidConfigurationMessage
       (validateConfig false none (mergeConfig emptyInput)).errors) (by decide)⟩

/-- C4: whenever the merged config lacks a client-initialization API key
(`firebaseClientInitConfig` absent, or its `apiKey` absent or empty),
`setConfig` throws the aggregated InvalidConfiguration error and the
collected messages mention the API key requirement, in both client and
server execution contexts (the context is universally quantified). -/
theorem apiKey_required_rule :
    ∀ (c : Bool) (e : Option String) (st : Option ConfigMerged) (u : ConfigInput),
      hasApiKey (mergeConfig u) = false →
        msgApiKeyRequired ∈ (validateConfig c e (mergeConfig u)).errors ∧
        (setConfig c e st u).thrown =
          some (invalidConfigurationMessage
            (validateConfig c e (mergeConfig u)).errors) := by
  intro c e st u h
  have hmem : msgApiKeyRequired ∈ (validateConfig c e (mergeConfig u)).errors := by
    simp [validateConfig, mem_errIf, mem_ite_list, h]
  exact ⟨hmem, (setConfig_of_invalid (List.ne_nil_of_mem hmem)).1⟩

/-- Witness for C4 at a concrete input: the empty user config has no API
key, and `setConfig` rejects it in client context and in server context. -/
theorem apiKey_required_rule_witness :
    msgApiKeyRequired ∈ (validateConfig true none (mergeConfig emptyInput)).errors ∧
    (setConfig true none none emptyInput).thrown =
      some (invalidConfigurationMessage
        (validateConfig true none (mergeConfig emptyInput)).errors) ∧
    msgApiKeyRequired ∈ (validateConfig false none (mergeConfig emptyInput)).errors ∧
    (setConfig false none none emptyInput).thrown =
      some (invalidConfigurationMessage
        (validateConfig false none (mergeConfig emptyInput)).errors) :=
  ⟨(apiKey_required_rule true none none emptyInput rfl).1,
   (apiKey_required_rule true none none emptyInput rfl).2,
   (apiKey_required_rule false none none emptyInput rfl).1,
   (apiKey_required_rule false none none emptyInput rfl).2⟩

/-- C5: in every execution context, when a token-change callback is
configured (truthy), each of the four conflicting fields that is also
set (truthy) - login endpoint, logout endpoint, on-login-request-error,
on-logout-request-error - contributes exactly one occurrence of its own
conflict message to the validation errors, and when the token-change
callback is absent each of the four conflict messages occurs zero times.
Both directions are captured by the exact occurrence counts below. -/
theorem tokenChangedHandler_exclusivity :
    ∀ (c : Bool) (e : Option String) (m : ConfigMerged),
      ((validateConfig c e m).errors.count msgLoginNotSet =
        if jsTruthy m.tokenChangedHandler && strTruthy m.loginAPIEndpoint
          then 1 else 0) ∧
      ((validateConfig c e m).errors.count msgLogoutNotSet =
        if jsTruthy m.tokenChangedHandler && strTruthy m.logoutAPIEndpoint
          then 1 else 0) ∧
      ((validateConfig c e m).errors.count msgOnLoginNotSet =
        if jsTruthy m.tokenChangedHandler && jsTruthy m.onLoginRequestError
          then 1 else 0) ∧
      ((validateConfig c e m).errors.count msgOnLogoutNotSet =
        if jsTruthy m.tokenChangedHandler && jsTruthy m.onLogoutRequestError
          then 1 else 0) := by
  intro c e m
  have hemu1 : ∀ env host, (emulatorEnvErrors env host).count msgLoginNotSet = 0 :=
    fun env host => count_emulatorEnvErrors_ne env host (by decide) (by decide)
  have hemu2 : ∀ env host, (emulatorEnvErrors env host).count msgLogoutNotSet = 0 :=
    fun env host => count_emulatorEnvErrors_ne env host (by decide) (by decide)
  have hemu3 : ∀ env host, (emulatorEnvErrors env host).count msgOnLoginNotSet = 0 :=
    fun env host => count_emulatorEnvErrors_ne env host (by decide) (by decide)
  have hemu4 : ∀ env host, (emulatorEnvErrors env host).count msgOnLogoutNotSet = 0 :=
    fun env host => count_emulatorEnvErrors_ne env host (by decide) (by decide)
  refine ⟨?_, ?_, ?_, ?_⟩ <;>
    simp +decide [validateConfig, List.count_append, count_errIf, count_ite_list,
      hemu1, hemu2, hemu3, hemu4, ite_and, Bool.and_eq_true]

/-- C6: in client context, when no token-change callback is set, a missing
(falsy) login endpoint contributes exactly one login-endpoint-required
message and a missing logout endpoint exactly one
logout-endpoint-required message (so a config missing both collects
exactly two such messages, besides whatever other rules contribute); when
a token-change callback is set, neither endpoint-required message is
produced.  Both directions are captured by the exact occurrence counts. -/
theorem client_endpoints_required :
    ∀ (e : Option String) (m : ConfigMerged),
      ((validateConfig true e m).errors.count msgLoginRequired =
        if !jsTruthy m.tokenChangedHandler && !strTruthy m.loginAPIEndpoint
          then 1 else 0) ∧
      ((validateConfig true e m).errors.count msgLogoutRequired =
        if !jsTruthy m.tokenChangedHandler && !strTruthy m.logoutAPIEndpoint
          then 1 else 0) := by
  intro e m
  refine ⟨?_, ?_⟩ <;>
    simp +decide [validateConfig, List.count_append, count_errIf, count_ite_list,
      ite_and, Bool.and_eq_true]

/-- C7: in server context, with an auth-emulator host configured (truthy),
the environment-variable rule behaves as claimed: when the
`FIREBASE_AUTH_EMULATOR_HOST` environment variable is unset (falsy, i.e.
undefined or empty, as the source tests truthiness) the
missing-variable message occurs exactly once and the mismatch message not
at all; when the variable is set (truthy) to a string different from the
configured host the mismatch message occurs exactly once and the
missing-variable message not at all; when it equals the configured host
neither occurs; and in every case at most one of the two messages is
produced. -/
theorem emulator_env_rule :
    ∀ (e : Option String) (m : ConfigMerged) (host : String),
      m.firebaseAuthEmulatorHost = some host → host ≠ "" →
        ((strTruthy e = false →
           (validateConfig false e m).errors.count msgEnvUnset = 1 ∧
           (validateConfig false e m).errors.count msgEnvMismatch = 0) ∧
         (strTruthy e = true → e ≠ some host →
           (validateConfig false e m).errors.count msgEnvMismatch = 1 ∧
           (validateConfig false e m).errors.count msgEnvUnset = 0) ∧
         (e = some host →
           (validateConfig false e m).errors.count msgEnvUnset = 0 ∧
           (validateConfig false e m).errors.count msgEnvMismatch = 0) ∧
         (validateConfig false e m).errors.count msgEnvUnset +
           (validateConfig false e m).errors.count msgEnvMismatch ≤ 1) := by
  intro e m host hhost hne
  have hbne : (host != "") = true := by simp [hne]
  have hc1 : (validateConfig false e m).errors.count msgEnvUnset =
      (emulatorEnvErrors e m.firebaseAuthEmulatorHost).count msgEnvUnset := by
    simp +decide [validateConfig, List.count_append, count_errIf, count_ite_list]
  have hc2 : (validateConfig false e m).errors.count msgEnvMismatch =
      (emulatorEnvErrors e m.firebaseAuthEmulatorHost).count msgEnvMismatch := by
    simp +decide [validateConfig, List.count_append, count_errIf, count_ite_list]
  rw [hhost] at hc1 hc2
  have hunset : strTruthy e = false →
      (validateConfig false e m).errors.count msgEnvUnset = 1 ∧
      (validateConfig false e m).errors.count msgEnvMismatch = 0 := by
    intro hf
    rw [hc1, hc2]
    simp +decide [emulatorEnvErrors, hbne, hf]
  have hmis : strTruthy e = true → e ≠ some host →
      (validateConfig false e m).errors.count msgEnvMismatch = 1 ∧
      (validateConfig false e m).errors.count msgEnvUnset = 0 := by
    intro ht hneq
    rw [hc1, hc2]
    have hb2 : (e != some host) = true := by simp [hneq]
    simp +decide [emulatorEnvErrors, hbne, ht, hb2]
  have heqc : e = some host →
      (validateConfig false e m).errors.count msgEnvUnset = 0 ∧
      (validateConfig false e m).errors.count msgEnvMismatch = 0 := by
    intro heq
    rw [hc1, hc2]
    subst heq
    simp [emulatorEnvErrors, hbne, strTruthy]
  refine ⟨hunset, hmis, heqc, ?_⟩
  rcases hb : strTruthy e with _ | _
  · rw [(hunset hb).1, (hunset hb).2]
  · by_cases heq : e = some host
    · rw [(heqc heq).1, (heqc heq).2]
      decide
    · rw [(hmis hb heq).1, (hmis hb heq).2]

/-- Witness for C7 at concrete inputs: host `localhost:9099` with the
environment variable unset, set to a different host, and set identically. -/
theorem emulator_env_rule_witness :
    (validateConfig false none mEmuHost).errors.count msgEnvUnset = 1 ∧
    (validateConfig false (some "otherhost:9099") mEmuHost).errors.count
      msgEnvMismatch = 1 ∧
    (validateConfig false (some "localhost:9099") mEmuHost).errors.count
      msgEnvUnset = 0 ∧
    (validateConfig false (some "localhost:9099") mEmuHost).errors.count
      msgEnvMismatch = 0 :=
  ⟨((emulator_env_rule none mEmuHost "localhost:9099" rfl (by decide)).1 rfl).1,
   ((emulator_env_rule (some "otherhost:9099") mEmuHost "localhost:9099" rfl
      (by decide)).2.1 (by decide) (by decide)).1,
   ((emulator_env_rule (some "localhost:9099") mEmuHost "localhost:9099" rfl
      (by decide)).2.2.1 rfl).1,
   ((emulator_env_rule (some "localhost:9099") mEmuHost "localhost:9099" rfl
      (by decide)).2.2.1 rfl).2⟩

/-- C8: for every user config, the object handed to the debug log is the
redaction of the user config: its cookie signing keys are the one-element
placeholder list `["hidden"]`, and, when an admin credential is supplied,
its private key and client email are the placeholder string `"hidden"`;
and the log event carrying exactly this redacted object is the first
event of the `setConfig` trace, strictly before the validation event. -/
theorem redaction_and_log_order :
    ∀ (c : Bool) (e : Option String) (st : Option ConfigMerged) (u : ConfigInput),
      ((setConfig c e st u).trace.take 2 =
        [SetEvent.logged (replacePrivateValues u),
         SetEvent.validated (validateConfig c e (mergeConfig u))]) ∧
      (replacePrivateValues u).cookies.keys = some (KeysVal.arr [some "hidden"]) ∧
      (∀ (a : FirebaseAdminInitConfig) (cr : FirebaseAdminCredential),
        u.firebaseAdminInitConfig = some a → a.credential = some cr →
          (replacePrivateValues u).firebaseAdminInitConfig =
            some { a with credential := some { cr with privateKey := some "hidden", clientEmail := some "hidden" } }) := by
  intro c e st u
  refine ⟨?_, rfl, ?_⟩
  · by_cases hv : (validateConfig c e (mergeConfig u)).isValid = true
    · simp [setConfig, hv]
    · simp [setConfig, hv]
  · intro a cr h1 h2
    simp [replacePrivateValues, h1, h2]

/-- Witness for C8 at a concrete input: a user config carrying signing
keys and an admin credential is logged first, with the keys, private key
and client email replaced by placeholders. -/
theorem redaction_and_log_order_witness :
    ((setConfig false none none uSecretsA).trace.take 2 =
      [SetEvent.logged (replacePrivateValues uSecretsA),
       SetEvent.validated (validateConfig false none (mergeConfig uSecretsA))]) ∧
    (replacePrivateValues uSecretsA).cookies.keys =
      some (KeysVal.arr [some "hidden"]) ∧
    (replacePrivateValues uSecretsA).firebaseAdminInitConfig =
      some { credential := some { projectId := some "example-project", clientEmail := some "hidden", privateKey := some "hidden" }, databaseURL := none } :=
  ⟨(redaction_and_log_order false none none uSecretsA).1,
   (redaction_and_log_order false none none uSecretsA).2.1,
   (redaction_and_log_order false none none uSecretsA).2.2
     { credential := some { projectId := some "example-project", clientEmail := some "a@example.com", privateKey := some "PRIVATE-A" }, databaseURL := none }
     { projectId := some "example-project", clientEmail := some "a@example.com", privateKey := some "PRIVATE-A" }
     rfl rfl⟩

theorem replace_eq_redactFromErased :
    ∀ u : ConfigInput, replacePrivateValues u = redactFromErased (eraseSecrets u) := by
  intro u
  rcases u with ⟨d, l, lo, ap, app, t, onl, onlo, onv, ont, host, adm, cli, ck⟩
  rcases adm with _ | ⟨cred, dburl⟩
  · cases ck <;> rfl
  · rcases cred with _ | cc
    · cases ck <;> rfl
    · cases ck <;> rfl

/-- C10: the redaction always sets `cookies.keys` of the logged object to
the one-element placeholder list, whether or not the user supplied cookies
or keys; and any two user configs that agree after erasing their secrets
(the cookie signing keys and, when an admin credential is present, its
private key and client email) produce identical logged objects, so the
debug log reveals nothing about those values, not even whether signing
keys were configured. -/
theorem log_reveals_no_secrets :
    (∀ u : ConfigInput,
      (replacePrivateValues u).cookies.keys = some (KeysVal.arr [some "hidden"])) ∧
    (∀ u₁ u₂ : ConfigInput, eraseSecrets u₁ = eraseSecrets u₂ →
      replacePrivateValues u₁ = replacePrivateValues u₂) :=
  ⟨fun _ => rfl,
   fun u₁ u₂ h => by
     rw [replace_eq_redactFromErased u₁, replace_eq_redactFromErased u₂, h]⟩

/-- Witness for C10 at concrete inputs: two user configs differing only in
their signing keys, private key and client email are logged identically. -/
theorem log_reveals_no_secrets_witness :
    replacePrivateValues uSecretsA = replacePrivateValues uSecretsB :=
  log_reveals_no_secrets.2 uSecretsA uSecretsB (by decide)

/-- C9, counterexample: the host `ftp://localhost:9099` includes a URL
scheme prefix, yet in neither execution context does validation of a
merged config carrying it produce the scheme message - the source only
tests whether the host starts with the literal characters `http`.  (Also
records that `localhost:9099` includes no scheme prefix.) -/
theorem emulator_scheme_counterexample :
    includesURLScheme "ftp://localhost:9099" = true ∧
    includesURLScheme "localhost:9099" = false ∧
    mFtpHost.firebaseAuthEmulatorHost = some "ftp://localhost:9099" ∧
    msgEmulatorScheme ∉ (validateConfig true none mFtpHost).errors ∧
    msgEmulatorScheme ∉ (validateConfig false none mFtpHost).errors :=
  ⟨by decide, by decide, rfl, by decide, by decide⟩

/-- C9, amended: for every merged config with a truthy auth-emulator host,
in every execution context, validation contributes the scheme message
exactly when the host starts with the literal characters `http` (so
`localhost:9099` contributes nothing, `http://` and `https://` hosts are
flagged, but a non-http scheme such as `ftp://` is not). -/
theorem emulator_scheme_rule_amended :
    ∀ (c : Bool) (e : Option String) (m : ConfigMerged) (host : String),
      m.firebaseAuthEmulatorHost = some host → host ≠ "" →
        (msgEmulatorScheme ∈ (validateConfig c e m).errors ↔
          jsStartsWith host "http" = true) := by
  intro c e m host hhost hne
  have hb : (host != "") = true := by simp [hne]
  constructor
  · intro hmem
    simp +decide [validateConfig, mem_errIf, mem_ite_list, hhost, hb] at hmem
    rcases hmem with h | h
    · exact h
    · rcases mem_emulatorEnvErrors_elim h.2 with hx | hx
      · exact absurd hx (by decide)
      · exact absurd hx (by decide)
  · intro hs
    simp [validateConfig, mem_errIf, mem_ite_list, hhost, hb, hs]

/-- Witness for the amended C9 at concrete inputs: an `https://` host is
flagged and the plain `localhost:9099` host is not. -/
theorem emulator_scheme_rule_amended_witness :
    msgEmulatorScheme ∈ (validateConfig true none mHttpsHost).errors ∧
    msgEmulatorScheme ∉ (validateConfig true none mEmuHost).errors :=
  ⟨(emulator_scheme_rule_amended true none mHttpsHost "https://localhost:9099"
      rfl (by decide)).mpr (by decide),
   fun hm =>
     absurd ((emulator_scheme_rule_amended true none mEmuHost "localhost:9099"
       rfl (by decide)).mp hm) (by decide)⟩
